import Mathlib

/-!
Verification of the PostPilot resource-control core (rate limiting, caching,
backend selection) against its natural-language specification.

The Python sources under `server/app/services/` are shallowly embedded:
wall-clock time and float token balances become `ℚ` passed explicitly,
dictionaries become association lists, SQLite rows become a list of records,
and Redis becomes an explicit store value whose operations run in `Except`
so that connection failures are visible.  Python `float` arithmetic on the
small numbers involved here is exact, so `ℚ` is a faithful model.
-/

set_option maxHeartbeats 1000000

/-! ## Python string helpers (str.strip, str.lower, substring search) -/

/-- Default whitespace set stripped by Python `str.strip()`: space and the
control characters TAB, LF, VT, FF, CR (code points 9 to 13).  The ASCII part
suffices; the Unicode extras are irrelevant to the texts in the claims. -/
def pyWhitespace (c : Char) : Bool :=
  c.toNat = 32 || (9 ≤ c.toNat && c.toNat ≤ 13)

/-- Python `str.strip()` on the character list: drop whitespace at both ends. -/
def pyStripList (l : List Char) : List Char :=
  ((l.dropWhile pyWhitespace).reverse.dropWhile pyWhitespace).reverse

/-- Python `str.strip()`. -/
def pyStrip (s : String) : String := ⟨pyStripList s.data⟩

/-- Python `str.lower()` restricted to ASCII case mapping, which is all the
repository ever lowercases (`Char.toLower` maps A–Z to a–z). -/
def pyLower (s : String) : String := ⟨s.data.map Char.toLower⟩

/-- Python `sub in s` substring test. -/
def pyIn (sub s : String) : Bool := decide (sub.data <:+: s.data)

/-- Index of the first occurrence of `pat` in `l`, if any
(Python `str.find` returning -1 becomes `none`). -/
def firstMatchIdx (pat : List Char) : List Char → Option ℕ
  | [] => if pat = [] then some 0 else none
  | c :: rest =>
    if pat = (c :: rest).take pat.length then some 0
    else (firstMatchIdx pat rest).map (· + 1)

/-- Python `s.find(sub)` (as an `Option`). -/
def pyFind (s sub : String) : Option ℕ := firstMatchIdx sub.data s.data

/-- Python `s.find(sub, start)` (as an `Option`). -/
def pyFindFrom (s sub : String) (start : ℕ) : Option ℕ :=
  (firstMatchIdx sub.data (s.data.drop start)).map (· + start)

/-- Python `s[a:b]` slicing. -/
def pySlice (s : String) (a b : ℕ) : String := ⟨(s.data.drop a).take (b - a)⟩

/-- Python `s[:b]` slicing. -/
def pyTake (s : String) (b : ℕ) : String := ⟨s.data.take b⟩

/-- Python `str.split()` with no argument: split on whitespace runs,
discarding empty pieces. -/
def pySplitWs (s : String) : List String :=
  ((s.data.splitOnP pyWhitespace).filter (· ≠ [])).map (⟨·⟩)

/-! ## Association lists (Python dict / SQLite keyed rows) -/

/-- Look up a key in an association list. -/
def lookupAssoc {α : Type} (k : String) : List (String × α) → Option α
  | [] => none
  | (k', v) :: rest => if k' = k then some v else lookupAssoc k rest

/-- Insert or replace the binding of a key in an association list
(`dict[k] = v` / SQL `INSERT OR REPLACE`). -/
def setAssoc {α : Type} (k : String) (v : α) : List (String × α) → List (String × α)
  | [] => [(k, v)]
  | (k', v') :: rest => if k' = k then (k, v) :: rest else (k', v') :: setAssoc k v rest

/-! ## Executable min/max on ℚ

Python `min`/`max` on numbers; written with an `if` over the core decidable
order on `Rat` so that concrete scenarios reduce inside the kernel. -/

def ratMin (a b : ℚ) : ℚ := if a ≤ b then a else b

def ratMax (a b : ℚ) : ℚ := if b ≤ a then a else b

/-! ## Configuration (`config.py`, class `Settings`)

Only the fields the resource-control core reads are modelled; the defaults
are the defaults of `config.py`. -/

structure Settings where
  fireworks_api_key : Option String := none
  use_redis : Bool := false
  cache_ttl : ℚ := 86400
  rate_limit_requests : ℕ := 60
  rate_limit_window : ℚ := 300
deriving DecidableEq

/-- The out-of-the-box `Settings()` instance. -/
def defaultSettings : Settings := {}

/-! ## `ratelimit.py`: TokenBucket -/

structure TokenBucket where
  capacity : ℚ
  refill_rate : ℚ
  tokens : ℚ
  last_refill : ℚ
deriving DecidableEq

/-- `TokenBucket.__init__`: starts full, with `last_refill` the current time. -/
def TokenBucket.init (capacity refill_rate now : ℚ) : TokenBucket :=
  { capacity := capacity, refill_rate := refill_rate, tokens := capacity, last_refill := now }

/-- The refill step at the top of `TokenBucket.consume`: add
`elapsed * refill_rate` tokens, clamped to capacity, and stamp `last_refill`. -/
def TokenBucket.refill (b : TokenBucket) (now : ℚ) : TokenBucket :=
  let time_elapsed := now - b.last_refill
  let tokens_to_add := time_elapsed * b.refill_rate
  { b with tokens := ratMin b.capacity (b.tokens + tokens_to_add), last_refill := now }

/-- `TokenBucket.consume`: refill, then take `tokens` from the balance if it
suffices, returning whether the request is allowed plus the updated bucket. -/
def TokenBucket.consume (b : TokenBucket) (now : ℚ) (tokens : ℚ) : Bool × TokenBucket :=
  let b := b.refill now
  if tokens ≤ b.tokens then (true, { b with tokens := b.tokens - tokens })
  else (false, b)

/-- `TokenBucket.get_retry_after`: seconds until the next token exists. -/
def TokenBucket.get_retry_after (b : TokenBucket) : ℚ :=
  if 1 ≤ b.tokens then 0
  else (1 - b.tokens) / b.refill_rate

/-! ## `ratelimit.py`: in-process RateLimiter -/

structure RateLimiter where
  buckets : List (String × TokenBucket)
  last_cleanup : ℚ
deriving DecidableEq

/-- `RateLimiter.__init__` (the 300-second cleanup interval is a constant). -/
def RateLimiter.init (now : ℚ) : RateLimiter := { buckets := [], last_cleanup := now }

/-- `RateLimiter._get_bucket_key`. -/
def bucket_key (client_id : String) (endpoint : Option String) : String :=
  match endpoint with
  | some e => client_id ++ ":" ++ e
  | none => client_id

/-- `RateLimiter._cleanup_old_buckets`: at most every 5 minutes, drop buckets
idle for more than an hour. -/
def RateLimiter.cleanup_old_buckets (rl : RateLimiter) (now : ℚ) : RateLimiter :=
  if now - rl.last_cleanup < 300 then rl
  else
    { buckets := rl.buckets.filter (fun kb => decide (¬ kb.2.last_refill < now - 3600)),
      last_cleanup := now }

/-- `RateLimiter.is_allowed`: sweep, fetch or lazily create the bucket
(capacity `rate_limit_requests`, refill `requests / window`), consume, and
report `(allowed, retry_after)` together with the updated limiter state. -/
def RateLimiter.is_allowed (s : Settings) (rl : RateLimiter) (client_id : String)
    (endpoint : Option String) (now : ℚ) (tokens : ℚ) : (Bool × ℚ) × RateLimiter :=
  let rl := rl.cleanup_old_buckets now
  let key := bucket_key client_id endpoint
  let bucket :=
    match lookupAssoc key rl.buckets with
    | some b => b
    | none => TokenBucket.init (s.rate_limit_requests : ℚ)
        ((s.rate_limit_requests : ℚ) / s.rate_limit_window) now
  let (ok, bucket') := bucket.consume now tokens
  let rl' : RateLimiter := { rl with buckets := setAssoc key bucket' rl.buckets }
  if ok then ((true, 0), rl')
  else ((false, bucket'.get_retry_after), rl')

/-- Run `n` consecutive `is_allowed` calls for one client/endpoint at a fixed
instant, collecting the `(allowed, retry_after)` results in order. -/
def runCalls (s : Settings) (rl : RateLimiter) (client_id : String)
    (endpoint : Option String) (now : ℚ) : ℕ → List (Bool × ℚ) × RateLimiter
  | 0 => ([], rl)
  | n + 1 =>
    let (r, rl') := RateLimiter.is_allowed s rl client_id endpoint now 1
    let (rest, rl'') := runCalls s rl' client_id endpoint now n
    (r :: rest, rl'')

/-! ## SHA-256 (`hashlib.sha256(...)` over the UTF-8 encoding)

Executable translation of FIPS 180-4, operating on byte lists (`ℕ` values
below 256) with 32-bit words represented as `ℕ` reduced mod `2 ^ 32`. -/

def w32 : ℕ := 4294967296

/-- Right rotation of a 32-bit word. -/
def rotr (n x : ℕ) : ℕ := ((x >>> n) ||| (x <<< (32 - n))) % w32

def bigSigma0 (x : ℕ) : ℕ := (rotr 2 x) ^^^ (rotr 13 x) ^^^ (rotr 22 x)

def bigSigma1 (x : ℕ) : ℕ := (rotr 6 x) ^^^ (rotr 11 x) ^^^ (rotr 25 x)

def smallSigma0 (x : ℕ) : ℕ := (rotr 7 x) ^^^ (rotr 18 x) ^^^ (x >>> 3)

def smallSigma1 (x : ℕ) : ℕ := (rotr 17 x) ^^^ (rotr 19 x) ^^^ (x >>> 10)

def shaCh (x y z : ℕ) : ℕ := (x &&& y) ^^^ ((x ^^^ 4294967295) &&& z)

def shaMaj (x y z : ℕ) : ℕ := (x &&& y) ^^^ (x &&& z) ^^^ (y &&& z)

/-- The 64 SHA-256 round constants (FIPS 180-4, written in decimal). -/
def shaK : List ℕ :=
  [1116352408, 1899447441, 3049323471, 3921009573,
   961987163, 1508970993, 2453635748, 2870763221,
   3624381080, 310598401, 607225278, 1426881987,
   1925078388, 2162078206, 2614888103, 3248222580,
   3835390401, 4022224774, 264347078, 604807628,
   770255983, 1249150122, 1555081692, 1996064986,
   2554220882, 2821834349, 2952996808, 3210313671,
   3336571891, 3584528711, 113926993, 338241895,
   666307205, 773529912, 1294757372, 1396182291,
   1695183700, 1986661051, 2177026350, 2456956037,
   2730485921, 2820302411, 3259730800, 3345764771,
   3516065817, 3600352804, 4094571909, 275423344,
   430227734, 506948616, 659060556, 883997877,
   958139571, 1322822218, 1537002063, 1747873779,
   1955562222, 2024104815, 2227730452, 2361852424,
   2428436474, 2756734187, 3204031479, 3329325298]

/-- The eight 32-bit chaining values of the SHA-256 state. -/
structure Sha256State where
  h0 : ℕ
  h1 : ℕ
  h2 : ℕ
  h3 : ℕ
  h4 : ℕ
  h5 : ℕ
  h6 : ℕ
  h7 : ℕ
deriving DecidableEq

def shaInit : Sha256State :=
  { h0 := 1779033703, h1 := 3144134277, h2 := 1013904242, h3 := 2773480762,
    h4 := 1359893119, h5 := 2600822924, h6 := 528734635, h7 := 1541459225 }

/-- One compression round, viewing the state as the working variables a–h. -/
def shaRound (v : Sha256State) (k w : ℕ) : Sha256State :=
  let t1 := (v.h7 + bigSigma1 v.h4 + shaCh v.h4 v.h5 v.h6 + k + w) % w32
  let t2 := (bigSigma0 v.h0 + shaMaj v.h0 v.h1 v.h2) % w32
  ⟨(t1 + t2) % w32, v.h0, v.h1, v.h2, (v.h3 + t1) % w32, v.h4, v.h5, v.h6⟩

/-- Extend a 16-word block to the 64-word message schedule. -/
def scheduleAux : ℕ → List ℕ → List ℕ
  | 0, w => w
  | n + 1, w =>
    let next := (smallSigma1 (w.getD (w.length - 2) 0) + w.getD (w.length - 7) 0 +
      smallSigma0 (w.getD (w.length - 15) 0) + w.getD (w.length - 16) 0) % w32
    scheduleAux n (w ++ [next])

def schedule (block : List ℕ) : List ℕ := scheduleAux 48 block

/-- Compress one 16-word block into the chaining state. -/
def shaCompress (hs : Sha256State) (block : List ℕ) : Sha256State :=
  let v := ((shaK.zip (schedule block)).foldl (fun v kw => shaRound v kw.1 kw.2) hs)
  ⟨(hs.h0 + v.h0) % w32, (hs.h1 + v.h1) % w32, (hs.h2 + v.h2) % w32, (hs.h3 + v.h3) % w32,
   (hs.h4 + v.h4) % w32, (hs.h5 + v.h5) % w32, (hs.h6 + v.h6) % w32, (hs.h7 + v.h7) % w32⟩

/-- Big-endian packing of bytes into 32-bit words, four at a time. -/
def bytesToWords : List ℕ → List ℕ
  | b0 :: b1 :: b2 :: b3 :: rest =>
    (b0 * 16777216 + b1 * 65536 + b2 * 256 + b3) % w32 :: bytesToWords rest
  | _ => []

/-- The eight big-endian bytes of the 64-bit message bit length. -/
def lenBytes (bitLen : ℕ) : List ℕ :=
  [bitLen / 2 ^ 56 % 256, bitLen / 2 ^ 48 % 256, bitLen / 2 ^ 40 % 256, bitLen / 2 ^ 32 % 256,
   bitLen / 2 ^ 24 % 256, bitLen / 2 ^ 16 % 256, bitLen / 2 ^ 8 % 256, bitLen % 256]

/-- SHA-256 padding: append `0x80`, zero bytes up to 56 mod 64, then the
bit length. -/
def padBytes (msg : List ℕ) : List ℕ :=
  msg ++ [0x80] ++ List.replicate ((119 - msg.length % 64) % 64) 0 ++ lenBytes (8 * msg.length)

/-- Split the padded word list into 16-word blocks (structural recursion so
that concrete digests reduce; padding always yields a multiple of 16 words). -/
def toBlocks : List ℕ → List (List ℕ)
  | w0 :: w1 :: w2 :: w3 :: w4 :: w5 :: w6 :: w7 ::
    w8 :: w9 :: w10 :: w11 :: w12 :: w13 :: w14 :: w15 :: rest =>
    [w0, w1, w2, w3, w4, w5, w6, w7, w8, w9, w10, w11, w12, w13, w14, w15] :: toBlocks rest
  | [] => []
  | l => [l]

/-- SHA-256 of a byte list, as the final chaining state. -/
def sha256Words (msg : List ℕ) : Sha256State :=
  (toBlocks (bytesToWords (padBytes msg))).foldl shaCompress shaInit

/-- Big-endian bytes of one 32-bit word. -/
def wordBytes (w : ℕ) : List ℕ := [w / 16777216 % 256, w / 65536 % 256, w / 256 % 256, w % 256]

/-- SHA-256 digest of a byte list: 32 bytes. -/
def sha256Bytes (msg : List ℕ) : List ℕ :=
  let hs := sha256Words msg
  wordBytes hs.h0 ++ wordBytes hs.h1 ++ wordBytes hs.h2 ++ wordBytes hs.h3 ++
  wordBytes hs.h4 ++ wordBytes hs.h5 ++ wordBytes hs.h6 ++ wordBytes hs.h7

/-- Lowercase hex digit character of a value below 16: digits start at code
point 48, letters a–f at 97. -/
def hexChar (n : ℕ) : Char :=
  if n < 10 then Char.ofNat (48 + n) else Char.ofNat (87 + n)

/-- Two lowercase hex digits of one byte. -/
def byteHex (b : ℕ) : List Char := [hexChar (b / 16), hexChar (b % 16)]

/-- Hex string of a byte list (Python `hexdigest()`). -/
def bytesToHex (bs : List ℕ) : String := ⟨(bs.map byteHex).flatten⟩

/-- UTF-8 encoding of one character (Python `str.encode()`). -/
def utf8EncodeChar (c : Char) : List ℕ :=
  let n := c.toNat
  if n < 128 then [n]
  else if n < 2048 then [192 ||| (n >>> 6), 128 ||| (n &&& 63)]
  else if n < 65536 then [224 ||| (n >>> 12), 128 ||| ((n >>> 6) &&& 63), 128 ||| (n &&& 63)]
  else [240 ||| (n >>> 18), 128 ||| ((n >>> 12) &&& 63), 128 ||| ((n >>> 6) &&& 63), 128 ||| (n &&& 63)]

/-- UTF-8 bytes of a string. -/
def utf8Bytes (s : String) : List ℕ := (s.data.map utf8EncodeChar).flatten

/-- `hashlib.sha256(s.encode()).hexdigest()`. -/
def sha256Hex (s : String) : String := bytesToHex (sha256Bytes (utf8Bytes s))

/-! ## `cache.py`: SQLiteCache

A database is the list of rows of the `cache` table, keyed by the primary
key column.  The SQL in `get` / `set` / `delete` / `cleanup_expired` becomes
the corresponding pure list operation, with `time.time()` passed explicitly.
The `json.dumps`/`json.loads` round trip is the identity on the stored
value, so rows hold the value itself, at any type `α`. -/

structure CacheRow (α : Type) where
  value : α
  created_at : ℚ
  expires_at : ℚ
deriving DecidableEq

structure SqliteDB (α : Type) where
  rows : List (String × CacheRow α)
deriving DecidableEq

def SqliteDB.empty {α : Type} : SqliteDB α := ⟨[]⟩

/-- `SQLiteCache.get`: `SELECT value FROM cache WHERE key = ? AND expires_at > now`. -/
def SqliteDB.get {α : Type} (db : SqliteDB α) (key : String) (now : ℚ) : Option α :=
  match lookupAssoc key db.rows with
  | some row => if now < row.expires_at then some row.value else none
  | none => none

/-- Python `ttl or settings.cache_ttl`: `None` and `0` are both falsy, so
either is replaced by the configured default TTL. -/
def pyTtlOr (ttl : Option ℚ) (dflt : ℚ) : ℚ :=
  match ttl with
  | none => dflt
  | some t => if t = 0 then dflt else t

/-- `SQLiteCache.set`: `INSERT OR REPLACE` with `expires_at = now + ttl`,
where a missing / zero `ttl` falls back to `settings.cache_ttl`.  Returns
`True` (the model has no I/O failures). -/
def SqliteDB.set {α : Type} (s : Settings) (db : SqliteDB α) (key : String) (value : α)
    (ttl : Option ℚ) (now : ℚ) : Bool × SqliteDB α :=
  let ttl := pyTtlOr ttl s.cache_ttl
  let expires_at := now + ttl
  (true, ⟨setAssoc key ⟨value, now, expires_at⟩ db.rows⟩)

/-- `SQLiteCache.cleanup_expired`: `DELETE FROM cache WHERE expires_at <= now`,
returning the deleted count. -/
def SqliteDB.cleanup_expired {α : Type} (db : SqliteDB α) (now : ℚ) : ℕ × SqliteDB α :=
  let kept := db.rows.filter (fun kr => decide (now < kr.2.expires_at))
  (db.rows.length - kept.length, ⟨kept⟩)

/-! ## `cache.py`: CacheManager -/

/-- The string that `CacheManager.generate_key` hashes, with the version
string as a parameter (the source fixes it to `"v2"`). -/
def hashInputV (cache_version text mode persona : String) : String :=
  pyLower (pyStrip text) ++ ":" ++ mode ++ ":" ++ persona ++ ":" ++ cache_version

/-- `CacheManager.generate_key` with the cache schema version as a parameter. -/
def generate_key_v (cache_version text mode persona : String) : String :=
  "postpilot:" ++ sha256Hex (hashInputV cache_version text mode persona)

/-- `CacheManager.generate_key`: normalize the text by strip + lower, hash
`"{text}:{mode}:{persona}:v2"` with SHA-256 and add the namespace tag. -/
def generate_key (text mode persona : String) : String :=
  generate_key_v "v2" text mode persona

/-- The metadata wrapper written by `CacheManager.set`. -/
structure CacheData (α : Type) where
  result : α
  cached_at : ℚ
  mode : String
  persona : String
  text_hash : String
deriving DecidableEq

/-- The `text_hash` diagnostic field: first 16 hex digits of SHA-256 of the
raw (unnormalized) text. -/
def textHash16 (text : String) : String := pyTake (sha256Hex text) 16

/-- `CacheManager.get`. -/
def CacheManager.get {α : Type} (db : SqliteDB (CacheData α))
    (text mode persona : String) (now : ℚ) : Option (CacheData α) :=
  db.get (generate_key text mode persona) now

/-- `CacheManager.set`: derive the key, attach metadata, store with `ttl`. -/
def CacheManager.set {α : Type} (s : Settings) (db : SqliteDB (CacheData α))
    (text mode persona : String) (result : α) (ttl : Option ℚ) (now : ℚ) :
    Bool × SqliteDB (CacheData α) :=
  let key := generate_key text mode persona
  let cache_data : CacheData α := ⟨result, now, mode, persona, textHash16 text⟩
  SqliteDB.set s db key cache_data ttl now

/-! ## `ratelimit.py`: RedisRateLimiter

The shared store is a value: per-key sorted sets of timestamp scores (the
member `str(now)` is determined by its score, so only scores are kept) and
per-key TTLs.  A `failing` flag makes every operation raise, standing for an
unreachable Redis; each operation therefore runs in `Except Unit`. -/

structure RedisStore where
  failing : Bool
  windows : List (String × List ℚ)
  ttls : List (String × ℚ)
deriving DecidableEq

def RedisStore.empty : RedisStore := ⟨false, [], []⟩

/-- Scores currently recorded under a key. -/
def RedisStore.window (st : RedisStore) (key : String) : List ℚ :=
  (lookupAssoc key st.windows).getD []

/-- `ZREMRANGEBYSCORE key lo hi` (inclusive range, as in Redis). -/
def RedisStore.zremrangebyscore (st : RedisStore) (key : String) (lo hi : ℚ) :
    Except Unit RedisStore :=
  if st.failing then .error () else
  let kept := (st.window key).filter (fun x => decide (¬ (lo ≤ x ∧ x ≤ hi)))
  .ok { st with windows := setAssoc key kept st.windows }

/-- `ZCARD key`. -/
def RedisStore.zcard (st : RedisStore) (key : String) : Except Unit ℕ :=
  if st.failing then .error () else .ok (st.window key).length

/-- `ZADD key {str(now): now}`: the member is new exactly when its score is. -/
def RedisStore.zadd (st : RedisStore) (key : String) (score : ℚ) : Except Unit RedisStore :=
  if st.failing then .error () else
  let updated :=
    if (st.window key).any (fun y => decide (y = score)) then st.window key
    else st.window key ++ [score]
  .ok { st with windows := setAssoc key updated st.windows }

/-- `EXPIRE key seconds`. -/
def RedisStore.expire (st : RedisStore) (key : String) (seconds : ℚ) : Except Unit RedisStore :=
  if st.failing then .error () else .ok { st with ttls := setAssoc key seconds st.ttls }

/-- `ZRANGE key 0 0 WITHSCORES`: the score of the oldest member, if any. -/
def RedisStore.zrangeOldest (st : RedisStore) (key : String) : Except Unit (Option ℚ) :=
  if st.failing then .error () else
  .ok (match st.window key with
    | [] => none
    | x :: xs => some (xs.foldl ratMin x))

/-- The Redis key `rate_limit:{client_id}:{endpoint or "global"}`. -/
def redisKey (client_id : String) (endpoint : Option String) : String :=
  "rate_limit:" ++ client_id ++ ":" ++ (endpoint.getD "global")

/-- `RedisRateLimiter.is_allowed`: sliding-window log.  Remove entries older
than the window, count the rest, insert the current timestamp, refresh the
key TTL; allow iff the pre-insert count is below the limit, otherwise report
the time until the oldest entry leaves the window.  Any store error is
caught and turned into `(True, 0.0)` — fail open. -/
def RedisRateLimiter.is_allowed (s : Settings) (st : RedisStore) (client_id : String)
    (endpoint : Option String) (now : ℚ) : (Bool × ℚ) × RedisStore :=
  let attempt : Except Unit ((Bool × ℚ) × RedisStore) := do
    let key := redisKey client_id endpoint
    let window_start := now - s.rate_limit_window
    let st1 ← st.zremrangebyscore key 0 window_start
    let current_requests ← st1.zcard key
    let st2 ← st1.zadd key now
    let st3 ← st2.expire key s.rate_limit_window
    if current_requests < s.rate_limit_requests then
      pure ((true, 0), st3)
    else do
      let oldest ← st3.zrangeOldest key
      match oldest with
      | some t0 => pure ((false, ratMax 0 (t0 + s.rate_limit_window - now)), st3)
      | none => pure ((false, s.rate_limit_window), st3)
  match attempt with
  | .ok r => r
  | .error _ => ((true, 0), st)

/-! ## Factories (`create_rate_limiter`, `LLMClientFactory`)

`redis_up` stands for whether the `ping()` probe at construction succeeds;
the constructors raise exactly when it fails, and the factory catches. -/

inductive RateLimiterImpl where
  | redis (st : RedisStore)
  | localLimiter (rl : RateLimiter)
deriving DecidableEq

/-- `RedisRateLimiter.__init__` / `init_redis`: raises when Redis is down. -/
def RedisRateLimiter.init (redis_up : Bool) : Except String RedisStore :=
  if redis_up then .ok RedisStore.empty
  else .error "Failed to initialize Redis rate limiter"

/-- `create_rate_limiter`: Redis when configured and reachable, otherwise the
in-process limiter; the construction itself never raises. -/
def create_rate_limiter (s : Settings) (redis_up : Bool) (now : ℚ) :
    Except String RateLimiterImpl :=
  if s.use_redis then
    match RedisRateLimiter.init redis_up with
    | .ok st => .ok (.redis st)
    | .error _ => .ok (.localLimiter (RateLimiter.init now))
  else .ok (.localLimiter (RateLimiter.init now))

/-! ## `llm_client.py`: mock client and factory -/

structure GenerationResult where
  text : String
  model : String
  provider : String
  processing_time : ℚ
  tokens_used : ℕ
  success : Bool
deriving DecidableEq

/-- The `tweet_content` extraction in `LocalMockClient.generate`. -/
def mockTweetContent (prompt : String) : String :=
  if pyIn "Tweet:" prompt then
    let tweet_start := (pyFind prompt "Tweet:").getD 0 + 6
    let tweet_end :=
      match pyFindFrom prompt "\n" tweet_start with
      | some e => e
      | none => prompt.data.length
    pyStrip (pySlice prompt tweet_start tweet_end)
  else "Sample tweet content"

/-- `LocalMockClient.generate`: deterministic canned responses chosen by
keyword; the artificial `asyncio.sleep(0.1 + temperature * 0.2)` delay is the
reported processing time. -/
def LocalMockClient.generate (prompt : String) (temperature : ℚ) : GenerationResult :=
  let tweet_content := mockTweetContent prompt
  let lowered := pyLower prompt
  let response_text :=
    if pyIn "summarize" lowered then
      "Summary of the tweet: " ++ pyTake tweet_content 100 ++
      "...\n\nThis tweet discusses important topics that are relevant to the audience.\n\nThe key points are clearly presented and easy to understand."
    else if pyIn "context" lowered then
      "Context for the tweet: " ++ pyTake tweet_content 100 ++
      "...\n\nThis provides important background information about the topic.\n\nThe context helps readers understand the broader implications.\n\nAdditional insights are provided to enhance understanding."
    else if pyIn "reply" lowered then
      "1. Great point about " ++ pyTake tweet_content 50 ++
      "...! I\x27d love to hear more about this.\n2. This is really interesting - what are your thoughts on the implications?\n3. Thanks for sharing this insight about " ++
      pyTake tweet_content 30 ++ "...!"
    else
      "Response to: " ++ pyTake tweet_content 100 ++
      "...\n\nThis is a generated response based on the input content.\n\nThe response addresses the key points mentioned in the tweet."
  { text := response_text
    model := "mock-local"
    provider := "local"
    processing_time := 1 / 10 + temperature * (2 / 10)
    tokens_used := (pySplitWs response_text).length
    success := true }

inductive LLMClientKind where
  | dobby (api_key : String) (model : String)
  | mock
deriving DecidableEq

/-- `LLMClientFactory.create_client`: the remote client only when a
credential is configured and longer than 10 characters (that same check is
`DobbyClient.is_available`); otherwise the local mock. -/
def LLMClientFactory.create_client (s : Settings) : LLMClientKind :=
  match s.fireworks_api_key with
  | some k =>
    if 10 < k.length then
      .dobby k "accounts/sentientfoundation-serverless/models/dobby-mini-unhinged-plus-llama-3-1-8b"
    else .mock
  | none => .mock

/-! ## Helper lemmas -/

theorem ratMin_eq_min (a b : ℚ) : ratMin a b = min a b := by
  simp only [ratMin, min_def]

theorem ratMax_eq_max (a b : ℚ) : ratMax a b = max a b := by
  rw [max_comm a b]
  simp only [ratMax, max_def]

theorem lookupAssoc_setAssoc_self {α : Type} (k : String) (v : α) (l : List (String × α)) :
    lookupAssoc k (setAssoc k v l) = some v := by
  induction l with
  | nil => simp [setAssoc, lookupAssoc]
  | cons kv rest ih =>
    by_cases h : kv.1 = k
    · simp [setAssoc, lookupAssoc, h]
    · simpa [setAssoc, lookupAssoc, h] using ih

theorem infix_of_map {α β : Type} (f : α → β) {l₁ l₂ : List α} (h : l₁ <:+: l₂) :
    l₁.map f <:+: l₂.map f := by
  obtain ⟨s, t, rfl⟩ := h
  exact ⟨s.map f, t.map f, by simp⟩

theorem string_data_append (s t : String) : (s ++ t).data = s.data ++ t.data := rfl

set_option maxRecDepth 100000

/-! ## Claim theorems -/

/-- C1 counterexample: over the local backend, `cacheManager.set(..., ttl=0)`
followed by an immediate `get` is a HIT, not a miss: Python `ttl or
settings.cache_ttl` treats `ttl=0` as unset and substitutes the default
86400-second TTL. -/
theorem c1_ttl_zero_counterexample :
    CacheManager.get ((CacheManager.set defaultSettings (SqliteDB.empty (α := CacheData Unit))
      "Hello World" "summarize" "human" () (some 0) 0).2) "Hello World" "summarize" "human" 0 ≠
      none := by
  simp [CacheManager.get, CacheManager.set, SqliteDB.set, SqliteDB.get, pyTtlOr,
    lookupAssoc_setAssoc_self, defaultSettings]

/-- C1 (amended): a `set` with `ttl=0` is coerced to the default
`settings.cache_ttl` by the `ttl or default` idiom, so as long as the default
TTL is positive the immediately following `get` returns the freshly stored
entry (with its metadata wrapper), not a miss. -/
theorem c1_ttl_zero_uses_default {α : Type} (s : Settings) (db : SqliteDB (CacheData α))
    (text mode persona : String) (result : α) (t : ℚ) (h : 0 < s.cache_ttl) :
    CacheManager.get ((CacheManager.set s db text mode persona result (some 0) t).2)
      text mode persona t = some ⟨result, t, mode, persona, textHash16 text⟩ := by
  simp [CacheManager.get, CacheManager.set, SqliteDB.set, SqliteDB.get, pyTtlOr,
    lookupAssoc_setAssoc_self]
  linarith

/-- C1 witness: the amended statement evaluated on the spec's own scenario. -/
theorem c1_ttl_zero_uses_default_witness :
    0 < defaultSettings.cache_ttl ∧
    CacheManager.get ((CacheManager.set defaultSettings (SqliteDB.empty (α := CacheData Unit))
      "Hello World" "summarize" "human" () (some 0) 0).2) "Hello World" "summarize" "human" 0 =
      some ⟨(), 0, "summarize", "human", textHash16 "Hello World"⟩ :=
  ⟨by decide, c1_ttl_zero_uses_default defaultSettings SqliteDB.empty
    "Hello World" "summarize" "human" () 0 (by decide)⟩

/-- C2: with capacity 5 and a 10-second window (refill rate 0.5/s), five
consecutive `is_allowed("c1", "summarize")` calls on a fresh limiter with no
time elapsing all return `(true, 0.0)`, and the sixth returns
`(false, (1 - 0) / 0.5) = (false, 2.0)`. -/
theorem c2_capacity_five_scenario :
    (runCalls { rate_limit_requests := 5, rate_limit_window := 10 } (RateLimiter.init 0)
      "c1" (some "summarize") 0 6).1 =
    [(true, 0), (true, 0), (true, 0), (true, 0), (true, 0), (false, 2)] := by
  with_unfolding_all decide

/-- C3: `get_retry_after` returns 0 when at least one token is present and
`(1 - tokens) / refill_rate` otherwise; for a fixed deficit, the value
strictly decreases as the elapsed wait (which refills tokens on the next
access) grows toward the required amount. -/
theorem c3_retry_after_formula (b : TokenBucket) (w w' : ℚ)
    (hr : 0 < b.refill_rate) (hcap : 1 ≤ b.capacity) :
    (1 ≤ b.tokens → b.get_retry_after = 0) ∧
    (b.tokens < 1 → b.get_retry_after = (1 - b.tokens) / b.refill_rate) ∧
    (w < w' → b.tokens + w' * b.refill_rate < 1 →
      (b.refill (b.last_refill + w')).get_retry_after <
      (b.refill (b.last_refill + w)).get_retry_after) := by
  refine ⟨?_, ?_, ?_⟩
  · intro h1
    simp [TokenBucket.get_retry_after, h1]
  · intro h1
    simp [TokenBucket.get_retry_after, not_le.mpr h1]
  · intro hw hlt
    have hwr : w * b.refill_rate < w' * b.refill_rate := mul_lt_mul_of_pos_right hw hr
    have hw1 : b.tokens + w * b.refill_rate < 1 := by linarith
    have htw : ratMin b.capacity (b.tokens + (b.last_refill + w - b.last_refill) * b.refill_rate) =
        b.tokens + w * b.refill_rate := by
      rw [ratMin_eq_min]
      have helim : b.last_refill + w - b.last_refill = w := by ring
      rw [helim]
      exact min_eq_right (by linarith)
    have htw' : ratMin b.capacity (b.tokens + (b.last_refill + w' - b.last_refill) * b.refill_rate) =
        b.tokens + w' * b.refill_rate := by
      rw [ratMin_eq_min]
      have helim : b.last_refill + w' - b.last_refill = w' := by ring
      rw [helim]
      exact min_eq_right (by linarith)
    simp only [TokenBucket.refill, TokenBucket.get_retry_after, htw, htw']
    rw [if_neg (by linarith), if_neg (by linarith)]
    rw [div_lt_div_iff_of_pos_right hr]
    linarith

/-- C3 witness: an empty bucket with refill rate 2 owes `(1 - 0) / 2` seconds. -/
theorem c3_retry_after_formula_witness :
    0 < (TokenBucket.mk 5 2 0 0).refill_rate ∧
    (TokenBucket.mk 5 2 0 0).get_retry_after =
      (1 - (TokenBucket.mk 5 2 0 0).tokens) / (TokenBucket.mk 5 2 0 0).refill_rate :=
  ⟨by decide, (c3_retry_after_formula (TokenBucket.mk 5 2 0 0) 0 1
    (by decide) (by decide)).2.1 (by decide)⟩

/-- C5: for the local backend with positive TTL `T`, a `get` strictly before
`t0 + T` returns the stored value, a `get` strictly after `t0 + T` misses,
and in general a reader never receives an entry whose expiry has been
reached, even while the row is still physically present. -/
theorem c5_cache_roundtrip {α : Type} (s : Settings) (db : SqliteDB α) (k : String) (v : α)
    (T t0 t1 : ℚ) (hT : 0 < T) :
    (t1 < t0 + T → ((SqliteDB.set s db k v (some T) t0).2).get k t1 = some v) ∧
    (t0 + T < t1 → ((SqliteDB.set s db k v (some T) t0).2).get k t1 = none) ∧
    (∀ (db' : SqliteDB α) (k' : String) (now : ℚ) (row : CacheRow α),
      lookupAssoc k' db'.rows = some row → row.expires_at ≤ now →
      db'.get k' now = none) := by
  have hset : (SqliteDB.set s db k v (some T) t0).2.rows =
      setAssoc k ⟨v, t0, t0 + T⟩ db.rows := by
    simp [SqliteDB.set, pyTtlOr, hT.ne']
  refine ⟨?_, ?_, ?_⟩
  · intro hlt
    simp [SqliteDB.get, hset, lookupAssoc_setAssoc_self, hlt]
  · intro hgt
    simp [SqliteDB.get, hset, lookupAssoc_setAssoc_self, not_lt.mpr (le_of_lt hgt)]
  · intro db' k' now row hrow hexp
    simp [SqliteDB.get, hrow, not_lt.mpr hexp]

/-- The time bound of the C5 witness scenario. -/
theorem aux_three_lt_zero_add_five : (3 : ℚ) < 0 + 5 := by norm_num

/-- C5 witness: store under TTL 5 at time 0; read back at time 3. -/
theorem c5_cache_roundtrip_witness :
    0 < (5 : ℚ) ∧
    ((SqliteDB.set defaultSettings (SqliteDB.empty (α := ℕ)) "k" 7 (some 5) 0).2).get "k" 3 =
      some 7 :=
  ⟨by decide, (c5_cache_roundtrip defaultSettings SqliteDB.empty "k" 7 5 0 3 (by decide)).1
    aux_three_lt_zero_add_five⟩

/-- C6: whenever the shared store raises during an admission check, the
distributed limiter catches the error and returns `(true, 0.0)` with the
store untouched — fail open, never propagating the error. -/
theorem c6_redis_fail_open (s : Settings) (st : RedisStore) (client_id : String)
    (endpoint : Option String) (now : ℚ) (h : st.failing = true) :
    RedisRateLimiter.is_allowed s st client_id endpoint now = ((true, 0), st) := by
  simp [RedisRateLimiter.is_allowed, RedisStore.zremrangebyscore, h, Bind.bind, Except.bind]

/-- C6 witness: a failing store answers `(true, 0.0)` on a concrete call. -/
theorem c6_redis_fail_open_witness :
    (RedisStore.mk true [] []).failing = true ∧
    RedisRateLimiter.is_allowed defaultSettings (RedisStore.mk true [] [])
      "c1" (some "summarize") 0 = ((true, 0), RedisStore.mk true [] []) :=
  ⟨rfl, c6_redis_fail_open defaultSettings (RedisStore.mk true [] []) "c1" (some "summarize") 0 rfl⟩

/-- C7 counterexample: with the store down at construction the factory does
fall back to the in-process limiter, but that limiter enforces its limits:
with capacity 1 the second immediate call returns `(false, 10)`, so
`is_allowed` does not always return `(true, 0.0)`. -/
theorem c7_fallback_counterexample :
    create_rate_limiter { use_redis := true, rate_limit_requests := 1, rate_limit_window := 10 }
      false 0 = .ok (.localLimiter (RateLimiter.init 0)) ∧
    (runCalls { use_redis := true, rate_limit_requests := 1, rate_limit_window := 10 }
      (RateLimiter.init 0) "c1" (some "summarize") 0 2).1 = [(true, 0), (false, 10)] := by
  constructor
  · rfl
  · with_unfolding_all decide

/-- C7 (amended): constructing the rate limiter never raises; with the store
down it silently selects the in-process limiter, whose `is_allowed` behaves
per the local token-bucket implementation — in particular the first call on a
fresh bucket with positive capacity returns `(true, 0.0)`, but calls are not
unconditionally allowed. -/
theorem c7_fallback_amended :
    (∀ (s : Settings) (up : Bool) (now : ℚ), ∃ impl, create_rate_limiter s up now = .ok impl) ∧
    (∀ (s : Settings) (now : ℚ), s.use_redis = true →
      create_rate_limiter s false now = .ok (.localLimiter (RateLimiter.init now))) ∧
    (∀ (s : Settings) (now : ℚ) (client_id : String) (endpoint : Option String),
      1 ≤ s.rate_limit_requests →
      (RateLimiter.is_allowed s (RateLimiter.init now) client_id endpoint now 1).1 = (true, 0)) := by
  refine ⟨?_, ?_, ?_⟩
  · intro s up now
    unfold create_rate_limiter RedisRateLimiter.init
    split
    · rcases up with _ | _
      · exact ⟨.localLimiter (RateLimiter.init now), rfl⟩
      · exact ⟨.redis RedisStore.empty, rfl⟩
    · exact ⟨.localLimiter (RateLimiter.init now), rfl⟩
  · intro s now hredis
    simp [create_rate_limiter, RedisRateLimiter.init, hredis]
  · intro s now client_id endpoint hreq
    have hcast : (1 : ℚ) ≤ (s.rate_limit_requests : ℚ) := by exact_mod_cast hreq
    have h1 : (RateLimiter.init now).cleanup_old_buckets now = RateLimiter.init now := by
      unfold RateLimiter.cleanup_old_buckets
      rw [if_pos]
      simp [RateLimiter.init]
    unfold RateLimiter.is_allowed
    rw [h1]
    simp only [RateLimiter.init, lookupAssoc]
    unfold TokenBucket.consume TokenBucket.refill TokenBucket.init
    simp only [sub_self, zero_mul, add_zero]
    have hmm : ratMin ((s.rate_limit_requests : ℚ)) ((s.rate_limit_requests : ℚ)) =
        (s.rate_limit_requests : ℚ) := by simp [ratMin]
    rw [hmm, if_pos hcast]
    simp

/-- C7 witness: the amended statement on the concrete down-at-startup
scenario with capacity 1. -/
theorem c7_fallback_amended_witness :
    (Settings.mk none true 86400 1 10).use_redis = true ∧
    create_rate_limiter (Settings.mk none true 86400 1 10) false 0 =
      .ok (.localLimiter (RateLimiter.init 0)) ∧
    1 ≤ (Settings.mk none true 86400 1 10).rate_limit_requests ∧
    (RateLimiter.is_allowed (Settings.mk none true 86400 1 10) (RateLimiter.init 0)
      "c1" (some "summarize") 0 1).1 = (true, 0) :=
  ⟨rfl, c7_fallback_amended.2.1 (Settings.mk none true 86400 1 10) 0 rfl, by decide,
   c7_fallback_amended.2.2 (Settings.mk none true 86400 1 10) 0 "c1" (some "summarize") (by decide)⟩

/-- C8: a bucket created with capacity `C ≥ 0` starts inside `[0, C]`, and
`consume` preserves `0 ≤ tokens ≤ capacity` for every nonnegative request
size: the refill clamps to capacity and tokens are only subtracted when the
post-refill balance suffices. -/
theorem c8_token_bucket_invariant :
    (∀ C r now : ℚ, 0 ≤ C →
      0 ≤ (TokenBucket.init C r now).tokens ∧
      (TokenBucket.init C r now).tokens ≤ (TokenBucket.init C r now).capacity) ∧
    (∀ (b : TokenBucket) (now n : ℚ), 0 ≤ b.refill_rate → b.last_refill ≤ now → 0 ≤ n →
      0 ≤ b.tokens → b.tokens ≤ b.capacity →
      ((b.consume now n).2.capacity = b.capacity ∧
       0 ≤ (b.consume now n).2.tokens ∧ (b.consume now n).2.tokens ≤ b.capacity)) := by
  constructor
  · intro C r now hC
    exact ⟨hC, le_refl _⟩
  · intro b now n hr hel hn h0 hcap
    have hT0 : 0 ≤ ratMin b.capacity (b.tokens + (now - b.last_refill) * b.refill_rate) := by
      rw [ratMin_eq_min]
      exact le_min (h0.trans hcap) (add_nonneg h0 (mul_nonneg (sub_nonneg.mpr hel) hr))
    have hTc : ratMin b.capacity (b.tokens + (now - b.last_refill) * b.refill_rate) ≤
        b.capacity := by
      rw [ratMin_eq_min]
      exact min_le_left _ _
    simp only [TokenBucket.consume, TokenBucket.refill]
    split
    · rename_i hok
      refine ⟨rfl, ?_, ?_⟩
      · simpa using sub_nonneg.mpr hok
      · calc ratMin b.capacity (b.tokens + (now - b.last_refill) * b.refill_rate) - n
            ≤ ratMin b.capacity (b.tokens + (now - b.last_refill) * b.refill_rate) :=
              sub_le_self _ hn
          _ ≤ b.capacity := hTc
    · exact ⟨rfl, hT0, hTc⟩

/-- C8 witness: the invariant holds across a concrete consume call. -/
theorem c8_token_bucket_invariant_witness :
    (0 ≤ (TokenBucket.init 5 2 0).tokens ∧
      (TokenBucket.init 5 2 0).tokens ≤ (TokenBucket.init 5 2 0).capacity) ∧
    (((TokenBucket.mk 5 2 3 0).consume 1 1).2.capacity = (TokenBucket.mk 5 2 3 0).capacity ∧
     0 ≤ ((TokenBucket.mk 5 2 3 0).consume 1 1).2.tokens ∧
     ((TokenBucket.mk 5 2 3 0).consume 1 1).2.tokens ≤ (TokenBucket.mk 5 2 3 0).capacity) :=
  ⟨c8_token_bucket_invariant.1 5 2 0 (by decide),
   c8_token_bucket_invariant.2 (TokenBucket.mk 5 2 3 0) 1 1
     (by decide) (by decide) (by decide) (by decide) (by decide)⟩

/-- C9: with no generation credential configured the factory yields the mock
client; the mock's `generate` always reports `success = true`; and any prompt
containing the keyword `summarize` yields a response text containing the
summarize-branch marker `Summary of the tweet: `. -/
theorem c9_mock_backend :
    (∀ s : Settings, s.fireworks_api_key = none → LLMClientFactory.create_client s = .mock) ∧
    (∀ (prompt : String) (temperature : ℚ),
      (LocalMockClient.generate prompt temperature).success = true) ∧
    (∀ (prompt : String) (temperature : ℚ), "summarize".data <:+: prompt.data →
      "Summary of the tweet: ".data <:+:
        (LocalMockClient.generate prompt temperature).text.data) := by
  refine ⟨?_, ?_, ?_⟩
  · intro s h
    simp [LLMClientFactory.create_client, h]
  · intro prompt temperature
    simp [LocalMockClient.generate]
  · intro prompt temperature hinf
    have hlow : "summarize".data <:+: (pyLower prompt).data := by
      have hmap := infix_of_map Char.toLower hinf
      have hfix : "summarize".data.map Char.toLower = "summarize".data := by decide
      rw [hfix] at hmap
      exact hmap
    have hpy : pyIn "summarize" (pyLower prompt) = true := by
      simp [pyIn, hlow]
    simp only [LocalMockClient.generate, hpy, if_true]
    exact ⟨[], (pyTake (mockTweetContent prompt) 100 ++
      "...\n\nThis tweet discusses important topics that are relevant to the audience.\n\nThe key points are clearly presented and easy to understand.").data, by
        simp [string_data_append]⟩

/-- C9 witness: the factory without a credential, and a concrete summarize
prompt through the mock. -/
theorem c9_mock_backend_witness :
    (Settings.mk none false 86400 60 300).fireworks_api_key = none ∧
    LLMClientFactory.create_client (Settings.mk none false 86400 60 300) = .mock ∧
    (LocalMockClient.generate "Please summarize this tweet" 0).success = true ∧
    "summarize".data <:+: ("Please summarize this tweet" : String).data ∧
    "Summary of the tweet: ".data <:+:
      (LocalMockClient.generate "Please summarize this tweet" 0).text.data :=
  ⟨rfl, c9_mock_backend.1 (Settings.mk none false 86400 60 300) rfl,
   c9_mock_backend.2.1 "Please summarize this tweet" 0, by decide,
   c9_mock_backend.2.2 "Please summarize this tweet" 0 (by decide)⟩

/-- C10: every admission check that reaches the shared store records the
current timestamp in the key's sliding-window set — whether or not the
request is admitted — so a denied request still occupies a slot and delays
recovery for later requests under the same key. -/
theorem c10_denied_request_occupies_slot (s : Settings) (st : RedisStore) (client_id : String)
    (endpoint : Option String) (now : ℚ) (h : st.failing = false) :
    now ∈ ((RedisRateLimiter.is_allowed s st client_id endpoint now).2).window
      (redisKey client_id endpoint) := by
  have hmem : ∀ l : List ℚ,
      now ∈ (if l.any (fun y => decide (y = now)) = true then l else l ++ [now]) := by
    intro l
    split
    · rename_i hany
      obtain ⟨y, hy, hye⟩ := List.any_eq_true.mp hany
      simpa [of_decide_eq_true hye] using hy
    · exact List.mem_append_right _ (by simp)
  simp only [RedisRateLimiter.is_allowed, RedisStore.zremrangebyscore, RedisStore.zcard,
    RedisStore.zadd, RedisStore.expire, RedisStore.zrangeOldest, h, Bool.false_eq_true,
    if_false, Bind.bind, Except.bind, pure, Except.pure, RedisStore.window,
    lookupAssoc_setAssoc_self, Option.getD_some]
  set key := redisKey client_id endpoint with hkey
  set L := List.filter (fun x => decide ¬(0 ≤ x ∧ x ≤ now - s.rate_limit_window))
    ((lookupAssoc key st.windows).getD []) with hLdef
  set U := if (L.any fun y => decide (y = now)) = true then L else L ++ [now] with hU
  by_cases hc : L.length < s.rate_limit_requests
  · simp only [hc, if_true, lookupAssoc_setAssoc_self, Option.getD_some]
    rw [hU]
    exact hmem L
  · simp only [hc, if_false]
    rcases hold : (match U with
      | [] => (none : Option ℚ)
      | x :: xs => some (List.foldl ratMin x xs)) with _ | t0
    · simp only [hold, lookupAssoc_setAssoc_self, Option.getD_some]
      rw [hU]
      exact hmem L
    · simp only [hold, lookupAssoc_setAssoc_self, Option.getD_some]
      rw [hU]
      exact hmem L

/-- C10 witness: a concrete call against a reachable store records its
timestamp in the window set. -/
theorem c10_denied_request_occupies_slot_witness :
    (RedisStore.mk false [] []).failing = false ∧
    (2 : ℚ) ∈ ((RedisRateLimiter.is_allowed defaultSettings (RedisStore.mk false [] [])
      "c1" (some "summarize") 2).2).window (redisKey "c1" (some "summarize")) :=
  ⟨rfl, c10_denied_request_occupies_slot defaultSettings (RedisStore.mk false [] [])
    "c1" (some "summarize") 2 rfl⟩
